import Mathlib

/-!
Verification of the remote DRAM key-value store driver
(`tensorstore/kvstore/remote_dram/remote_dram_kvstore.cc` and its header).

The development shallowly embeds the parts of the driver the claims touch:
the wire-protocol message header and its integrity rules, the checksum, the
server receive path's acceptance conditions, the server's read/write
response construction, the client's read-response handling, the listener
error mapping, manager shutdown, and the server storage map.  Machine
integers are modelled as `Nat` with explicit `% 2^32` / `% 2^64` where the
C++ code truncates; byte buffers are `List Nat` of byte values.
-/

namespace RemoteDram

/-! ## Constants (remote_dram_kvstore.h) -/

/-- `MESSAGE_MAGIC_NUMBER = 0xDEADBEEF`. -/
def MESSAGE_MAGIC_NUMBER : Nat := 0xDEADBEEF

/-- `MessageType::WRITE_REQUEST = 1`. -/
def WRITE_REQUEST : Nat := 1

/-- `MessageType::WRITE_RESPONSE = 2`. -/
def WRITE_RESPONSE : Nat := 2

/-- `MessageType::READ_REQUEST = 3`. -/
def READ_REQUEST : Nat := 3

/-- `MessageType::READ_RESPONSE = 4`. -/
def READ_RESPONSE : Nat := 4

/-- One past the largest `uint32_t` value. -/
def U32 : Nat := 2 ^ 32

/-- One past the largest `uint64_t` value. -/
def U64 : Nat := 2 ^ 64

/-- `sizeof(MessageHeader)`: the packed header is 4+4+4+4+8+4 = 28 bytes. -/
def headerSize : Nat := 28

/-- `sizeof(ReadResponse)` = `sizeof(WriteResponse)`: packed header plus a
32-bit `status_code`, 32 bytes. -/
def readResponseSize : Nat := 32

/-! ## MessageHeader (remote_dram_kvstore.h, struct MessageHeader)

The `type` field is a `MessageType : uint32_t`; after a
`reinterpret_cast` of a received buffer it can hold any 32-bit value, so it
is modelled as a plain `Nat` compared against the four constants. -/

structure MessageHeader where
  magic_number : Nat
  msg_type : Nat
  key_length : Nat
  value_length : Nat
  request_id : Nat
  checksum : Nat
deriving DecidableEq, Repr

/-! ## message_utils (remote_dram_kvstore.cc) -/

/-- One step of `CalculateChecksum`: `checksum = (checksum << 1) ^ bytes[i]`
in `uint32_t` arithmetic, the byte read as `uint8_t`. -/
def chkStep (c b : Nat) : Nat := ((c * 2) % U32) ^^^ (b % 256)

/-- `message_utils::CalculateChecksum`: fold `chkStep` over the data bytes
starting from 0. -/
def calculateChecksum (data : List Nat) : Nat := data.foldl chkStep 0

/-- `message_utils::VerifyMessageHeader` (the null-pointer guard is outside
the model: the callers pass the address of the received buffer).  Checks the
magic number, that the type is one of the four variants, and that the total
received size covers header + key + value. -/
def verifyMessageHeader (h : MessageHeader) (total_message_size : Nat) : Bool :=
  if h.magic_number ≠ MESSAGE_MAGIC_NUMBER then false
  else if ¬ (h.msg_type = WRITE_REQUEST ∨ h.msg_type = WRITE_RESPONSE ∨
             h.msg_type = READ_REQUEST ∨ h.msg_type = READ_RESPONSE) then false
  else if total_message_size < headerSize + h.key_length + h.value_length then false
  else true

/-- `message_utils::InitializeMessageHeader`.  `payload_data` is the pointer
argument (`none` models a null pointer); the checksum is computed over the
first `key_length + value_length` bytes of the payload when the pointer is
non-null and the payload is non-empty, else set to 0. -/
def initializeMessageHeader (t key_length value_length request_id : Nat)
    (payload_data : Option (List Nat)) : MessageHeader :=
  { magic_number := MESSAGE_MAGIC_NUMBER
    msg_type := t
    key_length := key_length
    value_length := value_length
    request_id := request_id
    checksum :=
      match payload_data with
      | some payload =>
          if 0 < key_length + value_length then
            calculateChecksum (payload.take (key_length + value_length))
          else 0
      | none => 0 }

/-! ## Server receive path acceptance (ServerReceiveCallback)

`ServerReceiveCallback` discards a message when (a) the received length is
below `sizeof(MessageHeader)`, (b) `VerifyMessageHeader` fails, or (c) the
type is `WRITE_REQUEST`, the header checksum is nonzero, and the checksum
recomputed over the first `key_length + value_length` payload bytes does not
match.  Any other received message is processed.  `payload` is the buffer
content after the 28-byte header. -/

def serverTreatsWellFormed (h : MessageHeader) (payload : List Nat)
    (recvLen : Nat) : Prop :=
  headerSize ≤ recvLen ∧ verifyMessageHeader h recvLen = true ∧
  (h.msg_type = WRITE_REQUEST → h.checksum ≠ 0 →
    calculateChecksum (payload.take (h.key_length + h.value_length)) = h.checksum)

instance (h : MessageHeader) (payload : List Nat) (recvLen : Nat) :
    Decidable (serverTreatsWellFormed h payload recvLen) := by
  unfold serverTreatsWellFormed; infer_instance

/-! ## Storage map (RemoteDramStorage)

`std::unordered_map<std::string, absl::Cord>` under a single mutex; the map
is modelled extensionally as a function from keys to optional values. -/

def Storage := String → Option (List Nat)

/-- `RemoteDramStorage::Store`: `storage_[key] = value` inserts or
overwrites. -/
def Storage.store (s : Storage) (key : String) (value : List Nat) : Storage :=
  fun q => if q = key then some value else s q

/-- `RemoteDramStorage::Get`: find the key, else `nullopt`. -/
def Storage.get (s : Storage) (key : String) : Option (List Nat) := s key

/-- `RemoteDramStorage::Remove`: `storage_.erase(key)`. -/
def Storage.remove (s : Storage) (key : String) : Storage :=
  fun q => if q = key then none else s q

/-- A freshly constructed (empty) storage map. -/
def emptyStorage : Storage := fun _ => none

/-! ## Read results (tensorstore kvstore::ReadResult as the driver uses it)

Only the fields the driver writes are modelled: the state tag, the value
bytes, and the generation of the stamp (`stamp.time = absl::Now()` is wall
clock and outside the model). -/

inductive ReadState | missing | value
deriving DecidableEq, Repr

inductive Generation
  | noValue
  | fromString (s : String)
deriving DecidableEq, Repr

structure ReadResult where
  state : ReadState
  value : List Nat
  generation : Generation
deriving DecidableEq, Repr

/-- The `kMissing` result with `StorageGeneration::NoValue()` that the
client paths build. -/
def missingNoValue : ReadResult :=
  { state := .missing, value := [], generation := .noValue }

/-! ## Client read-response handling (ClientReceiveCallback)

On a successful receive of at least `sizeof(ReadResponse)` bytes the client
reads `status_code` and `header.value_length` from the buffer and branches;
`buf` is the full received buffer, so the received length is `buf.length`. -/

def clientHandleReadResponse (status_code value_length : Nat)
    (buf : List Nat) : ReadResult :=
  if status_code = 0 ∧ 0 < value_length then
    if 1000000 < value_length then missingNoValue
    else if buf.length < readResponseSize + value_length then missingNoValue
    else { state := .value
           value := (buf.drop readResponseSize).take value_length
           generation := .fromString "remote_read" }
  else missingNoValue

/-! ## Byte-level wire encoding

The header is `__attribute__((packed))`, so on the wire a message built by
`WriteRemote` is exactly the six header fields laid out at offsets
0, 4, 8, 12, 16, 24, followed by the key bytes and the value bytes.  The
implementation runs between peers of identical (little-endian x86)
byte order; field reads after `reinterpret_cast` are modelled as
little-endian multi-byte reads. -/

/-- The `w` low-order bytes of `n`, least significant first (how a `w`-byte
integer field sits in the packed struct). -/
def toLE : Nat → Nat → List Nat
  | 0, _ => []
  | w + 1, n => n % 256 :: toLE w (n / 256)

/-- Read a little-endian integer back from bytes. -/
def fromLE : List Nat → Nat
  | [] => 0
  | b :: bs => b + 256 * fromLE bs

/-- Serialize a `MessageHeader` into its 28 packed bytes. -/
def encodeHeader (h : MessageHeader) : List Nat :=
  toLE 4 h.magic_number ++ toLE 4 h.msg_type ++ toLE 4 h.key_length ++
  toLE 4 h.value_length ++ toLE 8 h.request_id ++ toLE 4 h.checksum

/-- Read a `w`-byte field at byte offset `off` of a buffer. -/
def readField (buf : List Nat) (off w : Nat) : Nat := fromLE ((buf.drop off).take w)

/-- Decode the header fields of a received buffer
(`reinterpret_cast<MessageHeader*>(buffer)`). -/
def decodeHeader (buf : List Nat) : MessageHeader :=
  { magic_number := readField buf 0 4
    msg_type := readField buf 4 4
    key_length := readField buf 8 4
    value_length := readField buf 12 4
    request_id := readField buf 16 8
    checksum := readField buf 24 4 }

/-- The key the server extracts: `key_length` bytes at
`buffer + sizeof(MessageHeader)`. -/
def decodeKey (buf : List Nat) : List Nat :=
  (buf.drop headerSize).take (decodeHeader buf).key_length

/-- The value the server extracts: `value_length` bytes following the key. -/
def decodeValue (buf : List Nat) : List Nat :=
  ((buf.drop headerSize).drop (decodeHeader buf).key_length).take
    (decodeHeader buf).value_length

/-- `RemoteDramDriver::WriteRemote`'s message construction: copy key then
value after the header, then `InitializeMessageHeader` with the lengths cast
to `uint32_t` and the checksum computed over the payload just written.
`request_id` is a `uint64_t` from `GenerateRequestId`. -/
def buildWriteRequestBuffer (key value : List Nat) (request_id : Nat) : List Nat :=
  let payload := key ++ value
  let header := initializeMessageHeader WRITE_REQUEST (key.length % U32)
      (value.length % U32) (request_id % U64) (some payload)
  encodeHeader header ++ payload

/-! ## Server read response (UcxManager::SendReadResponse) -/

structure ReadResponseMsg where
  header : MessageHeader
  status_code : Nat
deriving DecidableEq, Repr

/-- The `ReadResponse` struct `SendReadResponse` fills in:
`status_code = 0` and `value_length = value->size()` when the value is
present, else `status_code = 1` and `value_length = 0`; magic, type,
`key_length = 0` and `request_id` are set explicitly; checksum covers the
value bytes when a non-empty value is present, else 0. -/
def buildReadResponse (request_id : Nat) (value : Option (List Nat)) :
    ReadResponseMsg :=
  let value_size : Nat := match value with | some v => v.length % U32 | none => 0
  { header :=
      { magic_number := MESSAGE_MAGIC_NUMBER
        msg_type := READ_RESPONSE
        key_length := 0
        value_length := value_size
        request_id := request_id
        checksum :=
          match value with
          | some v => if 0 < value_size then calculateChecksum (v.take value_size) else 0
          | none => 0 }
    status_code := if value.isSome then 0 else 1 }

/-- The bytes `SendReadResponse` puts on the wire: header and status code,
followed by the value bytes only when a non-empty value is present
(otherwise only the 32-byte `ReadResponse` struct is sent). -/
def readResponseWire (request_id : Nat) (value : Option (List Nat)) : List Nat :=
  let m := buildReadResponse request_id value
  let base := encodeHeader m.header ++ toLE 4 m.status_code
  match value with
  | some v => if 0 < v.length % U32 then base ++ v.take (v.length % U32) else base
  | none => base

/-! ## Server write response (UcxManager::SendWriteResponse)

`WriteResponse response;` is a stack local that is never zero-initialized;
`SendWriteResponse` then assigns `type`, `key_length`, `value_length`,
`request_id` and `status_code` — and nothing else — before sending the
struct.  A field holds `none` when no statement of the function assigns
it (its bytes on the wire are indeterminate stack garbage). -/

structure UninitWriteResponse where
  magic_number : Option Nat
  msg_type : Option Nat
  key_length : Option Nat
  value_length : Option Nat
  request_id : Option Nat
  checksum : Option Nat
  status_code : Option Nat
deriving DecidableEq, Repr

/-- The field assignments `SendWriteResponse` performs on the
`WriteResponse` struct before `ucp_tag_send_nbx`. -/
def sendWriteResponseMsg (request_id status_code : Nat) : UninitWriteResponse :=
  { magic_number := none
    msg_type := some WRITE_RESPONSE
    key_length := some 0
    value_length := some 0
    request_id := some request_id
    checksum := none
    status_code := some status_code }

/-! ## Listener creation error mapping (UcxManager::CreateListener)

`ucs_status_t` outcomes of `ucp_listener_create` are modelled by the
statuses the error branch distinguishes plus a catch-all; the absl status
codes are the canonical `absl::StatusCode` enumeration (which has no
"unreachable" member). -/

inductive UcsStatus
  | ok
  | busy
  | unreachable
  | unsupported
  | other (code : Nat)
deriving DecidableEq, Repr

inductive AbslStatusCode
  | ok
  | cancelled
  | unknown
  | invalidArgument
  | deadlineExceeded
  | notFound
  | alreadyExists
  | permissionDenied
  | resourceExhausted
  | failedPrecondition
  | aborted
  | outOfRange
  | unimplemented
  | internal
  | unavailable
  | dataLoss
  | unauthenticated
deriving DecidableEq, Repr

/-- The status code `CreateListener` surfaces when `ucp_listener_create`
fails (`none` when it succeeded): `UCS_ERR_BUSY` becomes
`ResourceExhaustedError`, `UCS_ERR_UNREACHABLE` becomes
`InvalidArgumentError`, `UCS_ERR_UNSUPPORTED` becomes
`UnimplementedError`, anything else `InternalError`. -/
def createListenerErrorCode (s : UcsStatus) : Option AbslStatusCode :=
  if s = UcsStatus.ok then none
  else if s = UcsStatus.busy then some .resourceExhausted
  else if s = UcsStatus.unreachable then some .invalidArgument
  else if s = UcsStatus.unsupported then some .unimplemented
  else some .internal

/-- Modelled from the spec: the error vocabulary of spec §7 for listener
creation failures, used only to state claim C4 against the code's actual
mapping.  Spec §7 lists ResourceExhausted (port in use), Unreachable
(address invalid/unreachable), Unimplemented/unsupported, and a generic
Internal as distinct kinds. -/
inductive SpecListenerError
  | resourceExhausted
  | unreachable
  | unsupported
  | internal
deriving DecidableEq, Repr

/-- Modelled from the spec: the mapping claim C4 asserts from transport
failure statuses to the spec's error kinds. -/
def specListenerErrorKind (s : UcsStatus) : Option SpecListenerError :=
  match s with
  | .ok => none
  | .busy => some .resourceExhausted
  | .unreachable => some .unreachable
  | .unsupported => some .unsupported
  | .other _ => some .internal

/-- Modelled from the spec: which spec §7 error kind an absl status code
realizes.  `invalidArgument` is the kind §7 reserves for malformed
addresses and arguments, so it realizes none of the four listener-failure
kinds; absl has no code for the spec's "Unreachable" kind at all. -/
def specKindOfCode (c : AbslStatusCode) : Option SpecListenerError :=
  match c with
  | .resourceExhausted => some .resourceExhausted
  | .unimplemented => some .unsupported
  | .internal => some .internal
  | _ => none

/-! ## Remote operations with a null client endpoint
(RemoteDramDriver::ReadRemote / WriteRemote) -/

inductive ReadRemoteOutcome
  | ready (r : ReadResult)
  | requestSent
deriving DecidableEq, Repr

inductive WriteRemoteOutcome
  | errorResult (c : AbslStatusCode) (msg : String)
  | requestSent
deriving DecidableEq, Repr

/-- `ReadRemote`'s dispatch on `client_endpoint_`: a null endpoint returns a
ready `kMissing` result with a `NoValue` generation; otherwise the request
is encoded and sent (the send path is abstracted as `requestSent`). -/
def readRemote (client_endpoint : Option Nat) (key : String) : ReadRemoteOutcome :=
  match client_endpoint with
  | none => .ready missingNoValue
  | some _ => .requestSent

/-- `WriteRemote`'s dispatch on `client_endpoint_`: a null endpoint returns
`absl::InternalError("Client endpoint not available")`; otherwise the
request is encoded and sent. -/
def writeRemote (client_endpoint : Option Nat) (key : String)
    (value : List Nat) : WriteRemoteOutcome :=
  match client_endpoint with
  | none => .errorResult .internal "Client endpoint not available"
  | some _ => .requestSent

/-! ## Manager shutdown (UcxManager::Shutdown)

The manager state is modelled by the fields `Shutdown` reads or writes;
endpoint and request handles are opaque `Nat`s, the pending tables are the
lists of registered request ids.  `Shutdown` on an initialized manager
stops the progress flag, clears the active receives, destroys the listener
and all endpoints, resolves every pending write with
`CancelledError("UCX Manager shutting down")` and every pending read with a
`kMissing`/`NoValue` result, clears both tables and marks the manager
uninitialized; on an uninitialized manager it returns at once. -/

structure ManagerState where
  managerInit : Bool
  progressTaskRunning : Bool
  listener : Option Nat
  clientEndpoints : List Nat
  clientSideEndpoints : List Nat
  activeRequests : List Nat
  pendingWriteIds : List Nat
  pendingReadIds : List Nat
deriving DecidableEq, Repr

/-- `UcxManager::Shutdown` as a state transformer returning the new state,
the write-promise resolutions and the read-promise resolutions it performs,
in table order. -/
def shutdown (s : ManagerState) :
    ManagerState × List (Nat × AbslStatusCode) × List (Nat × ReadResult) :=
  if s.managerInit then
    ({ managerInit := false
       progressTaskRunning := false
       listener := none
       clientEndpoints := []
       clientSideEndpoints := []
       activeRequests := []
       pendingWriteIds := []
       pendingReadIds := [] },
     s.pendingWriteIds.map fun i => (i, AbslStatusCode.cancelled),
     s.pendingReadIds.map fun i => (i, missingNoValue))
  else (s, [], [])

/-! ## Well-formedness as the spec states it (for claim C2) -/

/-- Modelled from the spec: claim C2's well-formedness condition — length
covers the header, magic matches, type is a known variant, length covers
header + key + value, and a nonzero header checksum equals the checksum
computed over the payload, for every message. -/
def specWellFormed (h : MessageHeader) (payload : List Nat) (recvLen : Nat) : Prop :=
  headerSize ≤ recvLen ∧ h.magic_number = MESSAGE_MAGIC_NUMBER ∧
  (h.msg_type = WRITE_REQUEST ∨ h.msg_type = WRITE_RESPONSE ∨
   h.msg_type = READ_REQUEST ∨ h.msg_type = READ_RESPONSE) ∧
  headerSize + h.key_length + h.value_length ≤ recvLen ∧
  (h.checksum ≠ 0 →
    calculateChecksum (payload.take (h.key_length + h.value_length)) = h.checksum)

instance (h : MessageHeader) (payload : List Nat) (recvLen : Nat) :
    Decidable (specWellFormed h payload recvLen) := by
  unfold specWellFormed; infer_instance

/-- Claim C2 as amended: identical to `specWellFormed` except that the
checksum clause applies only to `WRITE_REQUEST` messages — for the other
three variants the receive path never verifies the checksum. -/
def specWellFormedAmended (h : MessageHeader) (payload : List Nat)
    (recvLen : Nat) : Prop :=
  headerSize ≤ recvLen ∧ h.magic_number = MESSAGE_MAGIC_NUMBER ∧
  (h.msg_type = WRITE_REQUEST ∨ h.msg_type = WRITE_RESPONSE ∨
   h.msg_type = READ_REQUEST ∨ h.msg_type = READ_RESPONSE) ∧
  headerSize + h.key_length + h.value_length ≤ recvLen ∧
  (h.msg_type = WRITE_REQUEST → h.checksum ≠ 0 →
    calculateChecksum (payload.take (h.key_length + h.value_length)) = h.checksum)

instance (h : MessageHeader) (payload : List Nat) (recvLen : Nat) :
    Decidable (specWellFormedAmended h payload recvLen) := by
  unfold specWellFormedAmended; infer_instance

/-- A concrete initialized manager state with pending operations, used to
instantiate the shutdown theorem. -/
def sampleState : ManagerState :=
  { managerInit := true
    progressTaskRunning := true
    listener := some 1
    clientEndpoints := [5]
    clientSideEndpoints := [6]
    activeRequests := [7]
    pendingWriteIds := [10, 11]
    pendingReadIds := [20] }

/-! ## Helper lemmas -/

theorem toLE_length (w n : Nat) : (toLE w n).length = w := by
  induction w generalizing n with
  | zero => rfl
  | succ w ih => simp [toLE, ih]

theorem fromLE_toLE (w n : Nat) (h : n < 256 ^ w) : fromLE (toLE w n) = n := by
  induction w generalizing n with
  | zero => simp only [toLE, fromLE]; omega
  | succ w ih =>
      have hdiv : n / 256 < 256 ^ w := by
        have h2 : n < 256 ^ w * 256 := by rw [← pow_succ]; exact h
        exact Nat.div_lt_of_lt_mul (by omega)
      simp only [toLE, fromLE, ih (n / 256) hdiv]
      omega

theorem foldl_chkStep_lt (l : List Nat) (c : Nat) (hc : c < U32) :
    l.foldl chkStep c < U32 := by
  induction l generalizing c with
  | nil => exact hc
  | cons b bs ih =>
      refine ih _ ?_
      unfold chkStep U32
      refine Nat.xor_lt_two_pow (Nat.mod_lt _ (by norm_num)) ?_
      calc b % 256 < 256 := Nat.mod_lt _ (by norm_num)
        _ < 2 ^ 32 := by norm_num

theorem calculateChecksum_lt (l : List Nat) : calculateChecksum l < U32 :=
  foldl_chkStep_lt l 0 (by norm_num [U32])

theorem take_app (l r : List Nat) (k : Nat) (hl : l.length = k) :
    (l ++ r).take k = l := by subst hl; exact List.take_left l r

theorem drop_app (l r : List Nat) (k : Nat) (hl : l.length = k) :
    (l ++ r).drop k = r := by subst hl; exact List.drop_left l r

theorem encodeHeader_length (h : MessageHeader) : (encodeHeader h).length = 28 := by
  simp [encodeHeader, toLE_length]

theorem drop_encodeHeader (h : MessageHeader) (p : List Nat) :
    (encodeHeader h ++ p).drop headerSize = p :=
  drop_app _ _ _ (encodeHeader_length h)

theorem decodeHeader_encode (h : MessageHeader) (p : List Nat)
    (h1 : h.magic_number < U32) (h2 : h.msg_type < U32) (h3 : h.key_length < U32)
    (h4 : h.value_length < U32) (h5 : h.request_id < U64) (h6 : h.checksum < U32) :
    decodeHeader (encodeHeader h ++ p) = h := by
  have e0 : encodeHeader h ++ p =
      toLE 4 h.magic_number ++ (toLE 4 h.msg_type ++ (toLE 4 h.key_length ++
        (toLE 4 h.value_length ++ (toLE 8 h.request_id ++ (toLE 4 h.checksum ++ p))))) := by
    simp [encodeHeader, List.append_assoc]
  have d4 : (encodeHeader h ++ p).drop 4 =
      toLE 4 h.msg_type ++ (toLE 4 h.key_length ++
        (toLE 4 h.value_length ++ (toLE 8 h.request_id ++ (toLE 4 h.checksum ++ p)))) := by
    rw [e0]; exact drop_app _ _ 4 (toLE_length 4 _)
  have d8 : (encodeHeader h ++ p).drop 8 =
      toLE 4 h.key_length ++
        (toLE 4 h.value_length ++ (toLE 8 h.request_id ++ (toLE 4 h.checksum ++ p))) := by
    have : (8 : Nat) = 4 + 4 := rfl
    rw [this, ← List.drop_drop, d4]; exact drop_app _ _ 4 (toLE_length 4 _)
  have d12 : (encodeHeader h ++ p).drop 12 =
      toLE 4 h.value_length ++ (toLE 8 h.request_id ++ (toLE 4 h.checksum ++ p)) := by
    have : (12 : Nat) = 8 + 4 := rfl
    rw [this, ← List.drop_drop, d8]; exact drop_app _ _ 4 (toLE_length 4 _)
  have d16 : (encodeHeader h ++ p).drop 16 =
      toLE 8 h.request_id ++ (toLE 4 h.checksum ++ p) := by
    have : (16 : Nat) = 12 + 4 := rfl
    rw [this, ← List.drop_drop, d12]; exact drop_app _ _ 4 (toLE_length 4 _)
  have d24 : (encodeHeader h ++ p).drop 24 =
      toLE 4 h.checksum ++ p := by
    have : (24 : Nat) = 16 + 8 := rfl
    rw [this, ← List.drop_drop, d16]; exact drop_app _ _ 8 (toLE_length 8 _)
  unfold decodeHeader readField
  rw [List.drop_zero, d4, d8, d12, d16, d24, e0]
  rw [take_app _ _ 4 (toLE_length 4 _), take_app _ _ 4 (toLE_length 4 _),
      take_app _ _ 4 (toLE_length 4 _), take_app _ _ 4 (toLE_length 4 _),
      take_app _ _ 8 (toLE_length 8 _), take_app _ _ 4 (toLE_length 4 _)]
  rw [fromLE_toLE 4 _ h1, fromLE_toLE 4 _ h2, fromLE_toLE 4 _ h3,
      fromLE_toLE 4 _ h4, fromLE_toLE 8 _ h5, fromLE_toLE 4 _ h6]

theorem verifyMessageHeader_true_iff (h : MessageHeader) (total : Nat) :
    verifyMessageHeader h total = true ↔
      (h.magic_number = MESSAGE_MAGIC_NUMBER ∧
       (h.msg_type = WRITE_REQUEST ∨ h.msg_type = WRITE_RESPONSE ∨
        h.msg_type = READ_REQUEST ∨ h.msg_type = READ_RESPONSE) ∧
       headerSize + h.key_length + h.value_length ≤ total) := by
  unfold verifyMessageHeader
  split_ifs with h1 h2 h3 <;> simp_all

/-! ## Claim theorems -/

/-- C1: the claim says a remote read of a stored key with an empty value
completes with state=Value and zero-length bytes.  Evaluating the code at
that input: the server (`SendReadResponse`) answers a present empty value
with `status_code = 0` and `value_length = 0` and sends only the 32-byte
header, and the client (`ClientReceiveCallback`) maps that response to
`kMissing` with a `NoValue` generation — not to `kValue` — because its
value branch requires `value_length > 0`. -/
theorem empty_value_read_yields_missing :
    (buildReadResponse 7 (some [])).status_code = 0 ∧
    (buildReadResponse 7 (some [])).header.value_length = 0 ∧
    (readResponseWire 7 (some [])).length = readResponseSize ∧
    clientHandleReadResponse (buildReadResponse 7 (some [])).status_code
      (buildReadResponse 7 (some [])).header.value_length
      (readResponseWire 7 (some [])) = missingNoValue ∧
    missingNoValue.state ≠ ReadState.value := by decide

/-- C2 counterexample: a READ_REQUEST whose nonzero header checksum does
not match the payload checksum is processed by the server receive path
(treated as well-formed), yet the claim's well-formedness condition — which
demands the checksum match for every message — rejects it. -/
theorem checksum_skipped_for_read_request :
    serverTreatsWellFormed
      { magic_number := MESSAGE_MAGIC_NUMBER, msg_type := READ_REQUEST,
        key_length := 1, value_length := 0, request_id := 7, checksum := 5 }
      [0] 29 ∧
    ¬ specWellFormed
      { magic_number := MESSAGE_MAGIC_NUMBER, msg_type := READ_REQUEST,
        key_length := 1, value_length := 0, request_id := 7, checksum := 5 }
      [0] 29 := by decide

/-- C2 as amended: the receive path treats a message as well-formed iff the
length covers the header, the magic matches, the type is one of the four
variants, the length covers header + key + value, and — only when the type
is WRITE_REQUEST — a nonzero header checksum equals the payload checksum;
for the other three variants the checksum is never verified. -/
theorem server_well_formed_iff (h : MessageHeader) (payload : List Nat)
    (recvLen : Nat) :
    serverTreatsWellFormed h payload recvLen ↔
      specWellFormedAmended h payload recvLen := by
  unfold serverTreatsWellFormed specWellFormedAmended
  rw [verifyMessageHeader_true_iff]
  tauto

/-- C3: the claim says every built message has its magic field set to the
sentinel before being sent.  `SendWriteResponse` never assigns
`header.magic_number` (nor `header.checksum`) of its stack-allocated
`WriteResponse`, so the WriteResponse goes out with indeterminate magic;
the read response and the `InitializeMessageHeader`-built requests do set
it. -/
theorem write_response_magic_unset :
    (sendWriteResponseMsg 1 0).magic_number = none ∧
    (sendWriteResponseMsg 1 0).magic_number ≠ some MESSAGE_MAGIC_NUMBER ∧
    (sendWriteResponseMsg 1 0).checksum = none ∧
    (buildReadResponse 1 (some [1])).header.magic_number = MESSAGE_MAGIC_NUMBER ∧
    (initializeMessageHeader WRITE_REQUEST 1 1 1 (some [1, 2])).magic_number =
      MESSAGE_MAGIC_NUMBER ∧
    (initializeMessageHeader READ_REQUEST 1 0 1 (some [1])).magic_number =
      MESSAGE_MAGIC_NUMBER := by decide

/-- C4 counterexample: for the unreachable transport status,
`CreateListener` surfaces `absl::InvalidArgumentError` — the code absl
reserves for malformed arguments — and not any dedicated Unreachable error
kind, so the code's mapping does not realize the spec's Unreachable kind at
that status. -/
theorem unreachable_maps_to_invalid_argument :
    createListenerErrorCode UcsStatus.unreachable =
      some AbslStatusCode.invalidArgument ∧
    (createListenerErrorCode UcsStatus.unreachable).bind specKindOfCode ≠
      specListenerErrorKind UcsStatus.unreachable := by decide

/-- C4 as amended: on listener creation failure the code surfaces
ResourceExhausted for busy, InvalidArgument (not a dedicated Unreachable
kind) for unreachable, Unimplemented for unsupported, and Internal for any
other failure status; the four surfaced codes are pairwise distinct. -/
theorem listener_error_mapping :
    createListenerErrorCode UcsStatus.busy =
      some AbslStatusCode.resourceExhausted ∧
    createListenerErrorCode UcsStatus.unreachable =
      some AbslStatusCode.invalidArgument ∧
    createListenerErrorCode UcsStatus.unsupported =
      some AbslStatusCode.unimplemented ∧
    (∀ n : Nat, createListenerErrorCode (UcsStatus.other n) =
      some AbslStatusCode.internal) ∧
    [AbslStatusCode.resourceExhausted, AbslStatusCode.invalidArgument,
     AbslStatusCode.unimplemented, AbslStatusCode.internal].Pairwise (· ≠ ·) :=
  ⟨rfl, rfl, rfl, fun _ => rfl, by decide⟩

/-- C5: building a write-request buffer (header initialized with magic,
type, lengths, request id and payload checksum, followed by key bytes then
value bytes) and decoding header, key and value back from those bytes
reproduces every header field including the checksum and the original key
and value, whenever the key length fits in 32 bits and the whole message
fits in the 64 KiB receive buffer. -/
theorem write_request_roundtrip (key value : List Nat) (request_id : Nat)
    (hk : key.length < U32)
    (htot : headerSize + key.length + value.length ≤ 65536) :
    decodeHeader (buildWriteRequestBuffer key value request_id) =
      initializeMessageHeader WRITE_REQUEST key.length value.length
        (request_id % U64) (some (key ++ value)) ∧
    decodeKey (buildWriteRequestBuffer key value request_id) = key ∧
    decodeValue (buildWriteRequestBuffer key value request_id) = value := by
  have hU : U32 = 4294967296 := by norm_num [U32]
  have hv : value.length < U32 := by omega
  have hkm : key.length % U32 = key.length := Nat.mod_eq_of_lt hk
  have hvm : value.length % U32 = value.length := Nat.mod_eq_of_lt hv
  have hbuf : buildWriteRequestBuffer key value request_id =
      encodeHeader (initializeMessageHeader WRITE_REQUEST key.length
        value.length (request_id % U64) (some (key ++ value))) ++ (key ++ value) := by
    unfold buildWriteRequestBuffer
    rw [hkm, hvm]
  have hchk : (initializeMessageHeader WRITE_REQUEST key.length value.length
      (request_id % U64) (some (key ++ value))).checksum < U32 := by
    unfold initializeMessageHeader
    dsimp only
    split
    · exact calculateChecksum_lt _
    · omega
  have hdec : decodeHeader (buildWriteRequestBuffer key value request_id) =
      initializeMessageHeader WRITE_REQUEST key.length value.length
        (request_id % U64) (some (key ++ value)) := by
    rw [hbuf]
    exact decodeHeader_encode _ _ (by norm_num [initializeMessageHeader, MESSAGE_MAGIC_NUMBER, U32])
      (by norm_num [initializeMessageHeader, WRITE_REQUEST, U32])
      (by simpa [initializeMessageHeader] using hk)
      (by simpa [initializeMessageHeader] using hv)
      (by simpa [initializeMessageHeader] using
        Nat.mod_lt request_id (show 0 < U64 by norm_num [U64]))
      hchk
  refine ⟨hdec, ?_, ?_⟩
  · unfold decodeKey
    rw [hdec, hbuf, drop_encodeHeader]
    show (key ++ value).take
      (initializeMessageHeader WRITE_REQUEST key.length value.length
        (request_id % U64) (some (key ++ value))).key_length = key
    unfold initializeMessageHeader
    exact take_app _ _ _ rfl
  · unfold decodeValue
    rw [hdec, hbuf, drop_encodeHeader]
    show ((key ++ value).drop
        (initializeMessageHeader WRITE_REQUEST key.length value.length
          (request_id % U64) (some (key ++ value))).key_length).take
        (initializeMessageHeader WRITE_REQUEST key.length value.length
          (request_id % U64) (some (key ++ value))).value_length = value
    unfold initializeMessageHeader
    rw [drop_app _ _ _ rfl]
    exact List.take_length value

/-- C5 witness: the roundtrip at the concrete key [104, 105] and value
[33]. -/
theorem write_request_roundtrip_witness :
    decodeHeader (buildWriteRequestBuffer [104, 105] [33] 9) =
      initializeMessageHeader WRITE_REQUEST (List.length [104, 105])
        (List.length [33]) (9 % U64) (some ([104, 105] ++ [33])) ∧
    decodeKey (buildWriteRequestBuffer [104, 105] [33] 9) = [104, 105] ∧
    decodeValue (buildWriteRequestBuffer [104, 105] [33] 9) = [33] :=
  write_request_roundtrip [104, 105] [33] 9 (by norm_num [U32]) (by norm_num [headerSize])

/-- C6: for a read response with `status_code = 0` and positive
`value_length`, the client yields a `kMissing` result with a `NoValue`
generation when `value_length` exceeds 1,000,000 or the received length is
below `sizeof(ReadResponse) + value_length`; otherwise it yields a
`kValue` result holding exactly `value_length` bytes copied from the
buffer after the 32-byte response header. -/
theorem client_read_response_sanity (vl : Nat) (buf : List Nat)
    (hvl : 0 < vl) :
    ((1000000 < vl ∨ buf.length < readResponseSize + vl) →
      clientHandleReadResponse 0 vl buf = missingNoValue) ∧
    (vl ≤ 1000000 → readResponseSize + vl ≤ buf.length →
      clientHandleReadResponse 0 vl buf =
        { state := .value, value := (buf.drop readResponseSize).take vl,
          generation := .fromString "remote_read" } ∧
      ((buf.drop readResponseSize).take vl).length = vl) := by
  constructor
  · rintro (h | h)
    · unfold clientHandleReadResponse
      simp [hvl, h]
    · by_cases h1 : 1000000 < vl
      · unfold clientHandleReadResponse
        simp [hvl, h1]
      · unfold clientHandleReadResponse
        simp [hvl, h1, h]
  · intro h1 h2
    have h3 : ¬ 1000000 < vl := by omega
    have h4 : ¬ buf.length < readResponseSize + vl := by omega
    constructor
    · unfold clientHandleReadResponse
      simp [hvl, h3, h4]
    · rw [List.length_take, List.length_drop]
      unfold readResponseSize at h2 ⊢
      omega

/-- C6 witness: a 33-byte received buffer with `value_length = 1`. -/
theorem client_read_response_sanity_witness :
    ((1000000 < 1 ∨ (List.replicate 33 0).length < readResponseSize + 1) →
      clientHandleReadResponse 0 1 (List.replicate 33 0) = missingNoValue) ∧
    (1 ≤ 1000000 → readResponseSize + 1 ≤ (List.replicate 33 0).length →
      clientHandleReadResponse 0 1 (List.replicate 33 0) =
        { state := .value,
          value := ((List.replicate 33 0).drop readResponseSize).take 1,
          generation := .fromString "remote_read" } ∧
      (((List.replicate 33 0).drop readResponseSize).take 1).length = 1) :=
  client_read_response_sanity 1 (List.replicate 33 0) (by decide)

/-- C7: `Shutdown` on an initialized manager resolves every pending write
with a Cancelled error and every pending read with a `kMissing`/`NoValue`
result, empties both pending tables, a second call changes nothing and
resolves no promise, and a call on an uninitialized manager changes
nothing and resolves no promise. -/
theorem shutdown_resolves_and_idempotent (s : ManagerState)
    (hs : s.managerInit = true) :
    (shutdown s).2.1 =
      (s.pendingWriteIds.map fun i => (i, AbslStatusCode.cancelled)) ∧
    (shutdown s).2.2 = (s.pendingReadIds.map fun i => (i, missingNoValue)) ∧
    (shutdown s).1.pendingWriteIds = [] ∧
    (shutdown s).1.pendingReadIds = [] ∧
    shutdown (shutdown s).1 = ((shutdown s).1, [], []) ∧
    (∀ s2 : ManagerState, s2.managerInit = false →
      shutdown s2 = (s2, [], [])) := by
  refine ⟨?_, ?_, ?_, ?_, ?_, ?_⟩
  · simp [shutdown, hs]
  · simp [shutdown, hs]
  · simp [shutdown, hs]
  · simp [shutdown, hs]
  · simp [shutdown, hs]
  · intro s2 h2; simp [shutdown, h2]

/-- C7 witness: shutdown of `sampleState`, an initialized manager with two
pending writes and one pending read. -/
theorem shutdown_resolves_and_idempotent_witness :
    (shutdown sampleState).2.1 =
      (sampleState.pendingWriteIds.map fun i => (i, AbslStatusCode.cancelled)) ∧
    (shutdown sampleState).2.2 =
      (sampleState.pendingReadIds.map fun i => (i, missingNoValue)) ∧
    (shutdown sampleState).1.pendingWriteIds = [] ∧
    (shutdown sampleState).1.pendingReadIds = [] ∧
    shutdown (shutdown sampleState).1 = ((shutdown sampleState).1, [], []) ∧
    (∀ s2 : ManagerState, s2.managerInit = false →
      shutdown s2 = (s2, [], [])) :=
  shutdown_resolves_and_idempotent sampleState rfl

/-- C8: with a null client endpoint, `ReadRemote` returns a ready
`kMissing` result with a `NoValue` generation (indistinguishable from a
clean miss) while `WriteRemote` returns
`InternalError("Client endpoint not available")`. -/
theorem null_endpoint_asymmetry (key : String) (value : List Nat) :
    readRemote none key = .ready missingNoValue ∧
    missingNoValue =
      { state := .missing, value := [], generation := .noValue } ∧
    writeRemote none key value =
      .errorResult AbslStatusCode.internal "Client endpoint not available" :=
  ⟨rfl, rfl, rfl⟩

/-- C9: for any non-empty payload whose computed checksum is 0, the sender
(`InitializeMessageHeader`) installs checksum 0 in the header, and the
server receive path's acceptance of a message carrying that header does not
depend on the payload bytes at all — the checksum is verified only when the
header field is nonzero.  The witness exhibits such a payload: the single
byte 0x00. -/
theorem zero_checksum_payload_unverified (p : List Nat) (t rid : Nat)
    (hne : p ≠ []) (h0 : calculateChecksum p = 0) :
    (initializeMessageHeader t p.length 0 rid (some p)).checksum = 0 ∧
    (∀ (payload1 payload2 : List Nat) (recvLen : Nat),
      serverTreatsWellFormed (initializeMessageHeader t p.length 0 rid (some p))
        payload1 recvLen ↔
      serverTreatsWellFormed (initializeMessageHeader t p.length 0 rid (some p))
        payload2 recvLen) := by
  have hlen : 0 < p.length + 0 := by
    have := List.length_pos.mpr hne; omega
  have hchk : (initializeMessageHeader t p.length 0 rid (some p)).checksum = 0 := by
    unfold initializeMessageHeader
    dsimp only
    rw [if_pos hlen]
    rw [show p.length + 0 = p.length by omega, List.take_length]
    exact h0
  refine ⟨hchk, fun p1 p2 len => ?_⟩
  unfold serverTreatsWellFormed
  rw [hchk]
  simp

/-- C9 witness: the single byte 0x00 is a non-empty payload with checksum
0; with it the header carries checksum 0 and the server's acceptance
ignores the payload. -/
theorem zero_checksum_payload_unverified_witness :
    (initializeMessageHeader WRITE_REQUEST (List.length [0]) 0 1
      (some [0])).checksum = 0 ∧
    (∀ (payload1 payload2 : List Nat) (recvLen : Nat),
      serverTreatsWellFormed
        (initializeMessageHeader WRITE_REQUEST (List.length [0]) 0 1 (some [0]))
        payload1 recvLen ↔
      serverTreatsWellFormed
        (initializeMessageHeader WRITE_REQUEST (List.length [0]) 0 1 (some [0]))
        payload2 recvLen) :=
  zero_checksum_payload_unverified [0] WRITE_REQUEST 1 (by decide) (by decide)

/-- C10: storing under a key leaves every other key's mapping unchanged,
and removing a key leaves every other key's mapping unchanged. -/
theorem store_remove_frame (s : Storage) (k q : String) (v : List Nat)
    (h : q ≠ k) :
    (s.store k v).get q = s.get q ∧ (s.remove k).get q = s.get q := by
  unfold Storage.get Storage.store Storage.remove
  simp [h]

/-- C10 witness: the empty map with keys "alpha" and "beta". -/
theorem store_remove_frame_witness :
    (emptyStorage.store "alpha" [1, 2]).get "beta" = emptyStorage.get "beta" ∧
    (emptyStorage.remove "alpha").get "beta" = emptyStorage.get "beta" :=
  store_remove_frame emptyStorage "alpha" "beta" [1, 2] (by decide)

end RemoteDram
